import Mathlib

/-! oauth-proxy: startup wiring (`main.go`).

A shallow embedding of `func main()` of `src/main.go`.  The function is
straight-line code with five early exits; the embedding turns it into a total
function from a `World` (everything `main` obtains from outside: the outcome of
parsing the command line, the TOML decoder, the option resolver, and the
constructors of the other files of the package) to a `Run` (the ordered list of
observable steps, how the process ended, and the values that were built).

Collaborators that live outside `main.go` (`NewOptions`, `Validate`,
`NewValidator`, `NewOAuthProxy`, `NewHtpasswdFromFile`, the `flag`, `toml` and
`go-options` libraries) are fields of `World`, with no assumption on what they
return.  Functions that receive the `*Options` pointer return the options as
they leave them, so that a collaborator writing through the pointer is covered.
-/

namespace Oauth2Proxy

/-! ## Flag set -/

/-- Dynamic value of a flag (or of a configuration entry): the Go types that
`main` registers flags with.  `strings` is the `StringArray` behind
`flagSet.Var`; `duration` is a `time.Duration` in nanoseconds. -/
inductive Value where
  | str (s : String)
  | bool (b : Bool)
  | duration (ns : Int)
  | strings (xs : List String)
  deriving DecidableEq, Repr

/-- One registered flag: its name and default value (usage text left out, it
plays no part in the behaviour of `main`). -/
structure Flag where
  name : String
  value : Value
  deriving DecidableEq, Repr

/-- Nanoseconds in `time.Hour`. -/
def Hour : Int := 3600 * 1000000000

/-- The flags `main` registers on `flagSet`, lines 28 to 86, in source order.
The five `flagSet.Var` flags are bound to `StringArray{}` variables
(lines 22 to 26), hence start empty. -/
def mainFlags : List Flag :=
  [ ⟨"config", .str ""⟩,
    ⟨"version", .bool false⟩,
    ⟨"http-address", .str "127.0.0.1:4180"⟩,
    ⟨"https-address", .str ":8443"⟩,
    ⟨"tls-cert", .str ""⟩,
    ⟨"tls-key", .str ""⟩,
    ⟨"tls-client-ca", .strings []⟩,
    ⟨"redirect-url", .str ""⟩,
    ⟨"set-xauthrequest", .bool false⟩,
    ⟨"upstream", .strings []⟩,
    ⟨"pass-basic-auth", .bool true⟩,
    ⟨"pass-user-headers", .bool true⟩,
    ⟨"basic-auth-password", .str ""⟩,
    ⟨"pass-access-token", .bool false⟩,
    ⟨"pass-host-header", .bool true⟩,
    ⟨"skip-auth-regex", .strings []⟩,
    ⟨"skip-provider-button", .bool false⟩,
    ⟨"skip-auth-preflight", .bool false⟩,
    ⟨"ssl-insecure-skip-verify", .bool false⟩,
    ⟨"email-domain", .strings []⟩,
    ⟨"client-id", .str ""⟩,
    ⟨"client-secret", .str ""⟩,
    ⟨"client-secret-file", .str ""⟩,
    ⟨"authenticated-emails-file", .str ""⟩,
    ⟨"htpasswd-file", .str ""⟩,
    ⟨"display-htpasswd-form", .bool true⟩,
    ⟨"custom-templates-dir", .str ""⟩,
    ⟨"footer", .str ""⟩,
    ⟨"proxy-prefix", .str "/oauth"⟩,
    ⟨"openshift-group", .str ""⟩,
    ⟨"openshift-sar", .str ""⟩,
    ⟨"openshift-ca", .strings []⟩,
    ⟨"openshift-review-url", .str ""⟩,
    ⟨"openshift-delegate-urls", .str ""⟩,
    ⟨"openshift-service-account", .str ""⟩,
    ⟨"cookie-name", .str "_oauth_proxy"⟩,
    ⟨"cookie-secret", .str ""⟩,
    ⟨"cookie-secret-file", .str ""⟩,
    ⟨"cookie-domain", .str ""⟩,
    ⟨"cookie-expire", .duration (168 * Hour)⟩,
    ⟨"cookie-refresh", .duration 0⟩,
    ⟨"cookie-secure", .bool true⟩,
    ⟨"cookie-httponly", .bool true⟩,
    ⟨"request-logging", .bool true⟩,
    ⟨"provider", .str "openshift"⟩,
    ⟨"login-url", .str ""⟩,
    ⟨"redeem-url", .str ""⟩,
    ⟨"profile-url", .str ""⟩,
    ⟨"validate-url", .str ""⟩,
    ⟨"scope", .str ""⟩,
    ⟨"approval-prompt", .str "force"⟩,
    ⟨"signature-key", .str ""⟩ ]

/-- The flag set as `flagSet.Parse` sees it (line 91): the flags of `main`
followed by those `providerOpenShift.Bind(flagSet)` adds (line 89). -/
def flagSet (bound : List Flag) : List Flag :=
  mainFlags ++ bound

/-- `flagSet.Lookup(name)`: the registered flag of that name, if any. -/
def Lookup (fs : List Flag) (name : String) : Option Flag :=
  fs.find? (fun f => f.name == name)

/-- The flags set on the command line, with the value each ended up with
(the `actual` map of a Go `FlagSet` after `Parse`). -/
abbrev Actual := List (String × Value)

/-- `*showVersion` after `Parse` (lines 29 and 93): the value given on the
command line, else the registered default `false`. -/
def showVersion (actual : Actual) : Bool :=
  match actual.lookup "version" with
  | some (.bool b) => b
  | _ => false

/-- `*config` after `Parse` (lines 28 and 101): the value given on the command
line, else the registered default `""`. -/
def config (actual : Actual) : String :=
  match actual.lookup "config" with
  | some (.str s) => s
  | _ => ""

/-! ## Values built by `main` -/

/-- `EnvOptions`, a `map[string]interface{}`; `make(EnvOptions)` is `[]`. -/
abbrev EnvOptions := List (String × Value)

/-- The fields of `Options` this development reads. -/
structure Options where
  Provider : String
  EmailDomains : List String
  AuthenticatedEmailsFile : String
  HtpasswdFile : String
  DisplayHtpasswdForm : Bool
  RequestLogging : Bool
  deriving DecidableEq, Repr

/-- The fields of `OAuthProxy` that `main` writes.  `HtpasswdFile` is a
pointer, `none` is `nil`. -/
structure OAuthProxy (H : Type) where
  SignInMessage : String
  HtpasswdFile : Option H
  DisplayHtpasswdForm : Bool
  deriving DecidableEq, Repr

/-- `LoggingHandler(os.Stdout, oauthproxy, opts.RequestLogging)`, line 146:
the wrapped proxy and whether requests are logged. -/
structure LoggingHandler (H : Type) where
  handler : OAuthProxy H
  enabled : Bool
  deriving DecidableEq, Repr

/-- `Server`, lines 145 to 148. -/
structure Server (H : Type) where
  Handler : LoggingHandler H
  Opts : Options
  deriving DecidableEq, Repr

/-! ## Observable steps and outcome -/

/-- The calls of `main` that the claims speak about, one constructor each. -/
inductive Event where
  | openshiftNew
  | bind
  | parse
  | printf (line : String)
  | newOptions
  | decodeFile (path : String)
  | loadEnvForStruct
  | resolve
  | logPrintf (format : String) (args : List String)
  | logFatalf (format : String) (args : List String)
  | validate
  | newValidator (domains : List String) (usersFile : String)
  | newOAuthProxy
  | newHtpasswdFromFile (path : String)
  | newServer
  | listenAndServe
  deriving DecidableEq, Repr

/-- How `main` ended: it returned, the process exited with a status, or control
was handed to `s.ListenAndServe()` (line 149). -/
inductive Exit where
  | returned
  | exit (code : Nat)
  | serving
  deriving DecidableEq, Repr

/-- What a run of `main` did.  Besides the trace and the way it ended, the
record keeps the values of the local variables at the points the claims refer
to (`none` when the run did not get there):
`resolved` is `opts` as `options.Resolve` left it (line 108), `provider` is `p`
after the switch (line 117), `built` is `oauthproxy` as `NewOAuthProxy`
returned it (line 126), `opts` is `*opts` from line 128 on, `proxy` is
`oauthproxy` when the run ended, `server` is `s` (line 145). -/
structure Run (P H : Type) where
  trace : List Event
  exit : Exit
  resolved : Option Options := none
  provider : Option P := none
  built : Option (OAuthProxy H) := none
  opts : Option Options := none
  proxy : Option (OAuthProxy H) := none
  server : Option (Server H) := none

/-- Everything `main` takes from outside `main.go`. -/
structure World (P V H : Type) where
  /-- The constant `VERSION`. -/
  VERSION : String
  /-- Result of `runtime.Version()`. -/
  runtimeVersion : String
  /-- Result of `openshift.New()`, line 88. -/
  providerOpenShift : P
  /-- Flags added by `providerOpenShift.Bind(flagSet)`, line 89. -/
  bound : List Flag
  /-- Outcome of `flagSet.Parse(os.Args[1:])` on a `flag.ExitOnError` flag
  set: the flags that were set, or the exit status `Parse` ends the process
  with. -/
  parse : Except Nat Actual
  /-- Result of `NewOptions()`, line 98. -/
  newOptions : Options
  /-- The call `toml.DecodeFile(path, &cfg)`: the filled map, or the error. -/
  decodeFile : String → EnvOptions → Except String EnvOptions
  /-- The call `cfg.LoadEnvForStruct(opts)`: the map afterwards. -/
  loadEnvForStruct : EnvOptions → Options → EnvOptions
  /-- The call `options.Resolve(opts, flagSet, cfg)`: the options afterwards,
  or the exit status when the library ends the process. -/
  resolve : Options → List Flag → Actual → EnvOptions → Except Nat Options
  /-- The call `opts.Validate(p)`: the options afterwards and the error. -/
  validate : Options → P → Options × Option String
  /-- The call `NewValidator(domains, usersFile)`: the validator, and the
  elements of the `domains` slice afterwards (the callee shares its backing
  array). -/
  newValidator : List String → String → V × List String
  /-- The call `NewOAuthProxy(opts, validator)`: the proxy and the options
  afterwards. -/
  newOAuthProxy : Options → V → OAuthProxy H × Options
  /-- The call `NewHtpasswdFromFile(path)`: both results. -/
  newHtpasswdFromFile : String → Option H × Option String

/-! ## `main` -/

/-- The switch of lines 110 to 117: `p` when the provider name is recognised,
`none` for the `default` branch. -/
def selectProvider {P : Type} (providerOpenShift : P) (name : String) : Option P :=
  if name = "openshift" then some providerOpenShift else none

/-- Lines 128 to 134: the sign-in message assignment.  `opts.EmailDomains[0]`
is read only where the list is non-empty, so the fallback of `headD` is never
taken. -/
def setSignInMessage {H : Type} (opts : Options) (oauthproxy : OAuthProxy H) :
    OAuthProxy H :=
  if opts.EmailDomains.length ≠ 0 ∧ opts.AuthenticatedEmailsFile = "" then
    if opts.EmailDomains.length > 1 then
      { oauthproxy with
        SignInMessage := "Authenticate using one of the following domains: " ++
          ", ".intercalate opts.EmailDomains }
    else if opts.EmailDomains.headD "" ≠ "*" then
      { oauthproxy with
        SignInMessage := "Authenticate using " ++ opts.EmailDomains.headD "" }
    else oauthproxy
  else oauthproxy

/-- Lines 145 to 149: build the server and hand control to it. -/
def serve {P H : Type} (t : List Event) (r : Run P H) (opts : Options)
    (oauthproxy : OAuthProxy H) : Run P H :=
  { r with
    trace := t ++ [.newServer, .listenAndServe]
    exit := .serving
    proxy := some oauthproxy
    server := some ⟨⟨oauthproxy, opts.RequestLogging⟩, opts⟩ }

/-- Lines 136 to 149: load the htpasswd file when one is configured, then
serve.  Entered with the trace `t` so far, the record `r` of what was built, the
options and the proxy. -/
def loadHtpasswd {P V H : Type} (w : World P V H) (t : List Event) (r : Run P H)
    (opts : Options) (oauthproxy : OAuthProxy H) : Run P H :=
  if opts.HtpasswdFile ≠ "" then
    let (h, err) := w.newHtpasswdFromFile opts.HtpasswdFile
    let oauthproxy1 :=
      { oauthproxy with
        HtpasswdFile := h
        DisplayHtpasswdForm := opts.DisplayHtpasswdForm }
    let t1 := t ++ [.logPrintf "using htpasswd file %s" [opts.HtpasswdFile],
      .newHtpasswdFromFile opts.HtpasswdFile]
    match err with
    | some e =>
      { r with
        trace := t1 ++ [.logFatalf "FATAL: unable to open %s %s" [opts.HtpasswdFile, e]]
        exit := .exit 1
        proxy := some oauthproxy1 }
    | none => serve t1 r opts oauthproxy1
  else serve t r opts oauthproxy

/-- Lines 110 to 149: `main` from the provider switch on, entered with the
trace `t` so far and the resolved options. -/
def startup {P V H : Type} (w : World P V H) (t : List Event) (opts : Options) :
    Run P H :=
  match selectProvider w.providerOpenShift opts.Provider with
  | none =>
    { trace := t ++ [.logPrintf "Invalid configuration: provider %q is not recognized"
        [opts.Provider]]
      exit := .exit 1
      resolved := some opts }
  | some p =>
    match w.validate opts p with
    | (_, some err) =>
      { trace := t ++ [.validate, .logPrintf "%s" [err]]
        exit := .exit 1
        resolved := some opts
        provider := some p }
    | (opts1, none) =>
      let (validator, domains) :=
        w.newValidator opts1.EmailDomains opts1.AuthenticatedEmailsFile
      let opts2 := { opts1 with EmailDomains := domains }
      let (oauthproxy, opts3) := w.newOAuthProxy opts2 validator
      let t1 := t ++ [.validate,
        .newValidator opts1.EmailDomains opts1.AuthenticatedEmailsFile, .newOAuthProxy]
      let r : Run P H :=
        { trace := t1
          exit := .serving
          resolved := some opts
          provider := some p
          built := some oauthproxy
          opts := some opts3 }
      loadHtpasswd w t1 r opts3 (setSignInMessage opts3 oauthproxy)

/-- Lines 98 to 108, after the config file (if any) was decoded into `cfg`. -/
def resolveOptions {P V H : Type} (w : World P V H) (t : List Event) (actual : Actual)
    (cfg : EnvOptions) : Run P H :=
  let opts := w.newOptions
  let cfg1 := w.loadEnvForStruct cfg opts
  match w.resolve opts (flagSet w.bound) actual cfg1 with
  | .error code => { trace := t ++ [.loadEnvForStruct, .resolve], exit := .exit code }
  | .ok opts1 => startup w (t ++ [.loadEnvForStruct, .resolve]) opts1

/-- The function `main` of `src/main.go`. -/
def main {P V H : Type} (w : World P V H) : Run P H :=
  let t0 : List Event := [.openshiftNew, .bind, .parse]
  match w.parse with
  | .error code => { trace := t0, exit := .exit code }
  | .ok actual =>
    if showVersion actual then
      { trace := t0 ++ [.printf ("oauth2_proxy v" ++ w.VERSION ++ " (built with " ++
          w.runtimeVersion ++ ")\n")]
        exit := .returned }
    else
      let t1 := t0 ++ [.newOptions]
      if config actual ≠ "" then
        match w.decodeFile (config actual) [] with
        | .error err =>
          { trace := t1 ++ [.decodeFile (config actual),
              .logFatalf "ERROR: failed to load config file %s - %s" [config actual, err]]
            exit := .exit 1 }
        | .ok cfg => resolveOptions w (t1 ++ [.decodeFile (config actual)]) actual cfg
      else resolveOptions w t1 actual []


/-! ## Collaborators described by the specification

`options.Resolve`, `NewValidator` with `IsAuthorized`, and `ShouldBypassAuth` are
not part of `main.go`.  The three claims that speak about what they compute are
settled against the definitions below, which follow the words of the
specification. -/

/-- Modelled from the spec: the config key of a flag in `options.Resolve`
(go-options, not under `src/`), the flag name with `-` replaced by `_`. -/
def cfgName (flagName : String) : String :=
  flagName.replace "-" "_"

/-- Modelled from the spec: the value in effect for a configurable setting
after `options.Resolve(opts, flagSet, cfg)` (go-options, not under `src/`).
Section 6 calls the settings configurable with a default; the value is the one
supplied on the command line, else the one supplied by the config map (file and
environment), else the default the flag was registered with. -/
def resolveValue (fs : List Flag) (actual : Actual) (cfg : EnvOptions) (name : String) :
    Option Value :=
  match actual.lookup name with
  | some v => some v
  | none =>
    match cfg.lookup (cfgName name) with
    | some v => some v
    | none => (Lookup fs name).map (fun f => f.value)

/-- Modelled from the spec: the Validator Policy of section 3 (`validator.go`
is not under `src/`), a domain allowlist and an explicit email set.  The
htpasswd credential set needs a presented credential and plays no part in
`IsAuthorized(email)`. -/
structure Validator where
  domains : List String
  emails : List String
  deriving DecidableEq, Repr

/-- Modelled from the spec: `NewValidator(domains, usersFile)` (`validator.go`
is not under `src/`).  The email list is loaded once at construction
(section 9); `readEmails` is the content of the file, one email per line, and
no file is read when no path is configured. -/
def NewValidator (readEmails : String → List String) (domains : List String)
    (usersFile : String) : Validator :=
  { domains := domains
    emails := if usersFile = "" then [] else readEmails usersFile }

/-- The part of an email after its last `@`, the whole text when there is none. -/
def domainPart (email : String) : String :=
  (email.splitOn "@").getLastD ""

/-- The part of an email before its last `@`. -/
def localPart (email : String) : String :=
  "@".intercalate (email.splitOn "@").dropLast

/-- Email comparison, case-insensitive on the domain part (section 4.3). -/
def sameEmail (a b : String) : Bool :=
  localPart a == localPart b && (domainPart a).toLower == (domainPart b).toLower

/-- Modelled from the spec: `IsAuthorized(email)` of section 4.3
(`validator.go` is not under `src/`).  An empty email is denied; the wildcard
domain rule `*` short-circuits to true; otherwise the email is permitted iff it
satisfies at least one configured rule, so an unconfigured Validator denies
every email. -/
def Validator.IsAuthorized (v : Validator) (email : String) : Bool :=
  if email = "" then false
  else if v.domains.contains "*" then true
  else
    v.domains.any (fun d => (domainPart email).toLower == d.toLower) ||
      v.emails.any (fun e => sameEmail e email)

/-- Modelled from the spec: `ShouldBypassAuth(requestPath, method)` of section
4.4 (`oauthproxy.go` is not under `src/`), true when the path matches any
configured bypass pattern, or when the method is OPTIONS and preflight bypass
is enabled.  `matchString re path` is the regular-expression engine. -/
def ShouldBypassAuth (matchString : String → String → Bool) (skipAuthRegex : List String)
    (skipAuthPreflight : Bool) (requestPath method : String) : Bool :=
  skipAuthRegex.any (fun re => matchString re requestPath) ||
    (method == "OPTIONS" && skipAuthPreflight)

/-! ## Sample worlds -/

/-- A world used to run `main` on concrete inputs: the command line `parsed`,
and `opts` as the options `options.Resolve` arrives at.  The config file
`missing.cfg` and the htpasswd file `missing.htpasswd` cannot be opened;
validation fails when no email rule at all is configured. -/
def sampleWorld (parsed : Actual) (opts : Options) : World String Unit String where
  VERSION := "2.2.1-alpha"
  runtimeVersion := "go1.9"
  providerOpenShift := "openshift-provider"
  bound := []
  parse := .ok parsed
  newOptions := ⟨"", [], "", "", false, false⟩
  decodeFile := fun path cfg =>
    if path = "missing.cfg" then .error "open missing.cfg: no such file or directory"
    else .ok cfg
  loadEnvForStruct := fun cfg _ => cfg
  resolve := fun _ _ _ _ => .ok opts
  validate := fun o _ =>
    (o, if o.EmailDomains = [] ∧ o.AuthenticatedEmailsFile = "" ∧ o.HtpasswdFile = "" then
      some "missing setting for email validation" else none)
  newValidator := fun d _ => ((), d)
  newOAuthProxy := fun o _ => (⟨"Sign in", none, false⟩, o)
  newHtpasswdFromFile := fun path =>
    if path = "missing.htpasswd" then
      (none, some "open missing.htpasswd: no such file or directory")
    else (some path, none)

/-- Options with the given provider name, email domains and htpasswd path. -/
def sampleOptions (provider : String) (domains : List String) (htpasswd : String) :
    Options :=
  ⟨provider, domains, "", htpasswd, true, true⟩

/-! ## Structure of a run -/

variable {P V H : Type}

/-- The steps that happen up to and including `options.Resolve` (line 108). -/
def Event.early : Event → Bool
  | .openshiftNew | .bind | .parse | .newOptions | .decodeFile _
  | .loadEnvForStruct | .resolve => true
  | _ => false

/-- The steps that happen up to and including `NewOAuthProxy` (line 126) on a
run that gets there. -/
def Event.constructing : Event → Bool
  | .validate | .newValidator _ _ | .newOAuthProxy => true
  | e => e.early

/-- No htpasswd file configured: the proxy is served as it is. -/
theorem loadHtpasswd_unset (w : World P V H) (t : List Event) (r : Run P H)
    (opts : Options) (q : OAuthProxy H) (h : opts.HtpasswdFile = "") :
    loadHtpasswd w t r opts q = serve t r opts q := by
  simp [loadHtpasswd, h]

/-- An htpasswd file is configured and `NewHtpasswdFromFile` returns an error. -/
theorem loadHtpasswd_error (w : World P V H) (t : List Event) (r : Run P H)
    (opts : Options) (q : OAuthProxy H) (e : String) (h : opts.HtpasswdFile ≠ "")
    (he : (w.newHtpasswdFromFile opts.HtpasswdFile).2 = some e) :
    loadHtpasswd w t r opts q =
      { r with
        trace := t ++ [.logPrintf "using htpasswd file %s" [opts.HtpasswdFile],
          .newHtpasswdFromFile opts.HtpasswdFile] ++
          [.logFatalf "FATAL: unable to open %s %s" [opts.HtpasswdFile, e]]
        exit := .exit 1
        proxy := some { q with
          HtpasswdFile := (w.newHtpasswdFromFile opts.HtpasswdFile).1
          DisplayHtpasswdForm := opts.DisplayHtpasswdForm } } := by
  rcases hh : w.newHtpasswdFromFile opts.HtpasswdFile with ⟨x, y⟩
  rw [hh] at he
  simp only at he
  subst he
  simp [loadHtpasswd, h, hh]

/-- An htpasswd file is configured and `NewHtpasswdFromFile` returns no error. -/
theorem loadHtpasswd_ok (w : World P V H) (t : List Event) (r : Run P H)
    (opts : Options) (q : OAuthProxy H) (h : opts.HtpasswdFile ≠ "")
    (he : (w.newHtpasswdFromFile opts.HtpasswdFile).2 = none) :
    loadHtpasswd w t r opts q =
      serve (t ++ [.logPrintf "using htpasswd file %s" [opts.HtpasswdFile],
          .newHtpasswdFromFile opts.HtpasswdFile]) r opts
        { q with
          HtpasswdFile := (w.newHtpasswdFromFile opts.HtpasswdFile).1
          DisplayHtpasswdForm := opts.DisplayHtpasswdForm } := by
  rcases hh : w.newHtpasswdFromFile opts.HtpasswdFile with ⟨x, y⟩
  rw [hh] at he
  simp only at he
  subst he
  simp [loadHtpasswd, h, hh]

/-- What `loadHtpasswd` leaves untouched in the record it is given. -/
theorem loadHtpasswd_frame (w : World P V H) (t : List Event) (r : Run P H)
    (opts : Options) (q : OAuthProxy H) :
    (loadHtpasswd w t r opts q).resolved = r.resolved ∧
    (loadHtpasswd w t r opts q).provider = r.provider ∧
    (loadHtpasswd w t r opts q).built = r.built ∧
    (loadHtpasswd w t r opts q).opts = r.opts ∧
    t <+: (loadHtpasswd w t r opts q).trace := by
  by_cases hc : opts.HtpasswdFile = ""
  · rw [loadHtpasswd_unset w t r opts q hc]
    simp [serve]
  · cases he : (w.newHtpasswdFromFile opts.HtpasswdFile).2 with
    | none =>
      rw [loadHtpasswd_ok w t r opts q hc he]
      simp [serve]
    | some e =>
      rw [loadHtpasswd_error w t r opts q e hc he]
      simp

theorem startup_resolved (w : World P V H) (t : List Event) (opts : Options) :
    (startup w t opts).resolved = some opts := by
  unfold startup
  split
  · rfl
  · split
    · rfl
    · exact (loadHtpasswd_frame w _ _ _ _).1

/-- `startup` only ever extends the trace it is entered with. -/
theorem startup_trace_extends (w : World P V H) (t : List Event) (opts : Options) :
    t <+: (startup w t opts).trace := by
  unfold startup
  split
  · exact List.prefix_append _ _
  · split
    · exact List.prefix_append _ _
    · exact (List.prefix_append _ _).trans (loadHtpasswd_frame w _ _ _ _).2.2.2.2

/-- `options.Resolve` ends the process. -/
theorem resolveOptions_error (w : World P V H) (t : List Event) (actual : Actual)
    (cfg : EnvOptions) (code : Nat)
    (h : w.resolve w.newOptions (flagSet w.bound) actual
      (w.loadEnvForStruct cfg w.newOptions) = .error code) :
    resolveOptions w t actual cfg =
      { trace := t ++ [.loadEnvForStruct, .resolve], exit := .exit code } := by
  simp [resolveOptions, h]

/-- `options.Resolve` returns: the run goes on with `startup`. -/
theorem resolveOptions_ok (w : World P V H) (t : List Event) (actual : Actual)
    (cfg : EnvOptions) (opts : Options)
    (h : w.resolve w.newOptions (flagSet w.bound) actual
      (w.loadEnvForStruct cfg w.newOptions) = .ok opts) :
    resolveOptions w t actual cfg =
      startup w (t ++ [.loadEnvForStruct, .resolve]) opts := by
  simp [resolveOptions, h]

/-- The run when `Parse` ends the process. -/
theorem main_parse_error (w : World P V H) (code : Nat) (h : w.parse = .error code) :
    main w = { trace := [.openshiftNew, .bind, .parse], exit := .exit code } := by
  simp [main, h]

/-- The run when the version flag is set. -/
theorem main_version (w : World P V H) (actual : Actual) (h : w.parse = .ok actual)
    (hv : showVersion actual = true) :
    main w =
      { trace := [.openshiftNew, .bind, .parse,
          .printf ("oauth2_proxy v" ++ w.VERSION ++ " (built with " ++
            w.runtimeVersion ++ ")\n")]
        exit := .returned } := by
  simp [main, h, hv]

/-- The run when the config file cannot be decoded. -/
theorem main_config_error (w : World P V H) (actual : Actual) (err : String)
    (h : w.parse = .ok actual) (hv : showVersion actual = false)
    (hc : config actual ≠ "")
    (hd : w.decodeFile (config actual) [] = .error err) :
    main w =
      { trace := [.openshiftNew, .bind, .parse, .newOptions, .decodeFile (config actual),
          .logFatalf "ERROR: failed to load config file %s - %s" [config actual, err]]
        exit := .exit 1 } := by
  simp [main, h, hv, hc, hd]

/-- The run when the config file is decoded. -/
theorem main_config_ok (w : World P V H) (actual : Actual) (cfg : EnvOptions)
    (h : w.parse = .ok actual) (hv : showVersion actual = false)
    (hc : config actual ≠ "")
    (hd : w.decodeFile (config actual) [] = .ok cfg) :
    main w =
      resolveOptions w [.openshiftNew, .bind, .parse, .newOptions,
        .decodeFile (config actual)] actual cfg := by
  simp [main, h, hv, hc, hd]

/-- The run when no config file is given. -/
theorem main_no_config (w : World P V H) (actual : Actual)
    (h : w.parse = .ok actual) (hv : showVersion actual = false)
    (hc : config actual = "") :
    main w = resolveOptions w [.openshiftNew, .bind, .parse, .newOptions] actual [] := by
  simp [main, h, hv, hc]

/-- Either a run ended before `options.Resolve` returned, and then nothing was
selected or built, or it is `startup` entered with a trace made of early steps
only, beginning with the creation and binding of the provider. -/
theorem main_cases (w : World P V H) :
    ((main w).resolved = none ∧ (main w).provider = none ∧ (main w).built = none ∧
      (main w).opts = none ∧ (main w).proxy = none ∧ (main w).server = none) ∨
    ∃ t opts, main w = startup w t opts ∧ [Event.openshiftNew, Event.bind] <+: t ∧
      ∀ e ∈ t, e.early = true := by
  cases hp : w.parse with
  | error code =>
    rw [main_parse_error w code hp]
    exact Or.inl ⟨rfl, rfl, rfl, rfl, rfl, rfl⟩
  | ok actual =>
    cases hv : showVersion actual with
    | true =>
      rw [main_version w actual hp hv]
      exact Or.inl ⟨rfl, rfl, rfl, rfl, rfl, rfl⟩
    | false =>
      by_cases hc : config actual = ""
      case neg =>
        cases hd : w.decodeFile (config actual) [] with
        | error err =>
          rw [main_config_error w actual err hp hv hc hd]
          exact Or.inl ⟨rfl, rfl, rfl, rfl, rfl, rfl⟩
        | ok cfg =>
          rw [main_config_ok w actual cfg hp hv hc hd]
          cases hr : w.resolve w.newOptions (flagSet w.bound) actual
              (w.loadEnvForStruct cfg w.newOptions) with
          | error code =>
            rw [resolveOptions_error w _ actual cfg code hr]
            exact Or.inl ⟨rfl, rfl, rfl, rfl, rfl, rfl⟩
          | ok opts1 =>
            rw [resolveOptions_ok w _ actual cfg opts1 hr]
            refine Or.inr ⟨_, _, rfl, ⟨_, rfl⟩, ?_⟩
            intro e he
            simp at he
            rcases he with he | he | he | he | he | he | he <;> subst he <;> rfl
      case pos =>
        rw [main_no_config w actual hp hv hc]
        cases hr : w.resolve w.newOptions (flagSet w.bound) actual
            (w.loadEnvForStruct [] w.newOptions) with
        | error code =>
          rw [resolveOptions_error w _ actual [] code hr]
          exact Or.inl ⟨rfl, rfl, rfl, rfl, rfl, rfl⟩
        | ok opts1 =>
          rw [resolveOptions_ok w _ actual [] opts1 hr]
          refine Or.inr ⟨_, _, rfl, ⟨_, rfl⟩, ?_⟩
          intro e he
          simp at he
          rcases he with he | he | he | he | he | he <;> subst he <;> rfl

/-- A run that got past `options.Resolve` is `startup` on the resolved options. -/
theorem main_eq_startup (w : World P V H) (opts : Options)
    (h : (main w).resolved = some opts) :
    ∃ t, main w = startup w t opts ∧ [Event.openshiftNew, Event.bind] <+: t ∧
      ∀ e ∈ t, e.early = true := by
  rcases main_cases w with hn | ⟨t, o, ht, hpre, hearly⟩
  · rw [hn.1] at h
    cases h
  · rw [ht, startup_resolved] at h
    cases h
    exact ⟨t, ht, hpre, hearly⟩

/-- The `default` branch of the switch. -/
theorem startup_unrecognized (w : World P V H) (t : List Event) (opts : Options)
    (h : opts.Provider ≠ "openshift") :
    startup w t opts =
      { trace := t ++ [.logPrintf "Invalid configuration: provider %q is not recognized"
          [opts.Provider]]
        exit := .exit 1
        resolved := some opts } := by
  simp [startup, selectProvider, h]

/-- The branch in which `opts.Validate(p)` returns an error. -/
theorem startup_invalid (w : World P V H) (t : List Event) (opts : Options) (err : String)
    (h : opts.Provider = "openshift")
    (he : (w.validate opts w.providerOpenShift).2 = some err) :
    startup w t opts =
      { trace := t ++ [.validate, .logPrintf "%s" [err]]
        exit := .exit 1
        resolved := some opts
        provider := some w.providerOpenShift } := by
  rcases hv : w.validate opts w.providerOpenShift with ⟨o, e⟩
  rw [hv] at he
  simp only at he
  subst he
  simp [startup, selectProvider, h, hv]

/-- The branch in which `opts.Validate(p)` returns no error: the Validator and
the OAuthProxy are built, the sign-in message is set, and the run goes on with
the htpasswd file. -/
theorem startup_valid (w : World P V H) (t : List Event) (opts : Options)
    (h : opts.Provider = "openshift")
    (he : (w.validate opts w.providerOpenShift).2 = none) :
    ∃ (d : List String) (f : String) (q : OAuthProxy H) (o : Options) (r : Run P H),
      startup w t opts =
        loadHtpasswd w (t ++ [.validate, .newValidator d f, .newOAuthProxy]) r o
          (setSignInMessage o q) ∧
      r.resolved = some opts ∧ r.provider = some w.providerOpenShift ∧
      r.built = some q ∧ r.opts = some o ∧ r.proxy = none ∧ r.server = none := by
  rcases hv : w.validate opts w.providerOpenShift with ⟨o, e⟩
  rw [hv] at he
  simp only at he
  subst he
  simp only [startup, selectProvider, h, ↓reduceIte, hv]
  exact ⟨_, _, _, _, _, rfl, rfl, rfl, rfl, rfl, rfl, rfl⟩

/-- A run that got as far as line 128 is `loadHtpasswd` entered after the
Validator and the OAuthProxy were built and the sign-in message was set. -/
theorem main_eq_loadHtpasswd (w : World P V H) (o : Options)
    (h : (main w).opts = some o) :
    ∃ (t : List Event) (q : OAuthProxy H) (r : Run P H),
      main w = loadHtpasswd w t r o (setSignInMessage o q) ∧
      r.built = some q ∧ r.opts = some o ∧ r.proxy = none ∧ r.server = none ∧
      ∀ e ∈ t, e.constructing = true := by
  rcases main_cases w with hn | ⟨t, opts, ht, -, hearly⟩
  · rw [hn.2.2.2.1] at h
    cases h
  · by_cases hp : opts.Provider = "openshift"
    · cases hv : (w.validate opts w.providerOpenShift).2 with
      | some err =>
        rw [ht, startup_invalid w t opts err hp hv] at h
        cases h
      | none =>
        obtain ⟨d, f, q, o1, r, hs, -, -, hb, ho, hq, hsv⟩ := startup_valid w t opts hp hv
        rw [ht, hs, (loadHtpasswd_frame w _ r o1 _).2.2.2.1, ho] at h
        cases h
        refine ⟨_, q, r, ht.trans hs, hb, ho, hq, hsv, ?_⟩
        intro e he
        simp only [List.mem_append, List.mem_cons, List.mem_singleton, List.not_mem_nil,
          or_false] at he
        rcases he with he | he | he | he
        · have := hearly e he
          cases e <;> simp_all [Event.constructing, Event.early]
        · subst he; rfl
        · subst he; rfl
        · subst he; rfl
    · rw [ht, startup_unrecognized w t opts hp] at h
      cases h

/-- The steps `loadHtpasswd` adds are none of those up to `NewOAuthProxy`. -/
theorem loadHtpasswd_trace (w : World P V H) (t : List Event) (r : Run P H)
    (opts : Options) (q : OAuthProxy H) :
    ∃ post, (loadHtpasswd w t r opts q).trace = t ++ post ∧
      ∀ e ∈ post, e.constructing = false := by
  by_cases hc : opts.HtpasswdFile = ""
  · rw [loadHtpasswd_unset w t r opts q hc]
    refine ⟨_, rfl, ?_⟩
    intro e he
    simp at he
    rcases he with he | he <;> subst he <;> rfl
  · cases he : (w.newHtpasswdFromFile opts.HtpasswdFile).2 with
    | none =>
      rw [loadHtpasswd_ok w t r opts q hc he]
      refine ⟨_, List.append_assoc _ _ _, ?_⟩
      intro e he
      simp at he
      rcases he with he | he | he | he <;> subst he <;> rfl
    | some e =>
      rw [loadHtpasswd_error w t r opts q e hc he]
      refine ⟨_, List.append_assoc _ _ _, ?_⟩
      intro e he
      simp at he
      rcases he with he | he | he <;> subst he <;> rfl

/-- The steps `startup` adds are none of those up to `options.Resolve`. -/
theorem startup_trace (w : World P V H) (t : List Event) (opts : Options) :
    ∃ post, (startup w t opts).trace = t ++ post ∧ ∀ e ∈ post, e.early = false := by
  by_cases hp : opts.Provider = "openshift"
  · cases hv : (w.validate opts w.providerOpenShift).2 with
    | some err =>
      rw [startup_invalid w t opts err hp hv]
      refine ⟨_, rfl, ?_⟩
      intro e he
      simp at he
      rcases he with he | he <;> subst he <;> rfl
    | none =>
      obtain ⟨d, f, q, o, r, hs, -⟩ := startup_valid w t opts hp hv
      obtain ⟨post, hpost, hc⟩ := loadHtpasswd_trace w
        (t ++ [.validate, .newValidator d f, .newOAuthProxy]) r o (setSignInMessage o q)
      rw [hs, hpost]
      refine ⟨_, List.append_assoc _ _ _, ?_⟩
      intro e he
      simp only [List.mem_append, List.mem_cons, List.mem_singleton, List.not_mem_nil,
        or_false] at he
      rcases he with (he | he | he) | he
      · subst he; rfl
      · subst he; rfl
      · subst he; rfl
      · have := hc e he
        cases e <;> simp_all [Event.constructing, Event.early]
  · rw [startup_unrecognized w t opts hp]
    refine ⟨_, rfl, ?_⟩
    intro e he
    simp at he
    subst he
    rfl

/-- The sign-in message assignment touches no other field of the proxy. -/
theorem setSignInMessage_frame (opts : Options) (q : OAuthProxy H) :
    (setSignInMessage opts q).HtpasswdFile = q.HtpasswdFile ∧
    (setSignInMessage opts q).DisplayHtpasswdForm = q.DisplayHtpasswdForm := by
  unfold setSignInMessage
  split <;> [(split <;> [skip; split]); skip] <;> exact ⟨rfl, rfl⟩

/-- The htpasswd step keeps the sign-in message, and always leaves a proxy. -/
theorem loadHtpasswd_proxy (w : World P V H) (t : List Event) (r : Run P H)
    (opts : Options) (q : OAuthProxy H) :
    ∃ q1, (loadHtpasswd w t r opts q).proxy = some q1 ∧
      q1.SignInMessage = q.SignInMessage := by
  by_cases hc : opts.HtpasswdFile = ""
  · rw [loadHtpasswd_unset w t r opts q hc]
    exact ⟨_, rfl, rfl⟩
  · cases he : (w.newHtpasswdFromFile opts.HtpasswdFile).2 with
    | none =>
      rw [loadHtpasswd_ok w t r opts q hc he]
      exact ⟨_, rfl, rfl⟩
    | some e =>
      rw [loadHtpasswd_error w t r opts q e hc he]
      exact ⟨_, rfl, rfl⟩

/-- With the recognised provider name, the selected provider is the instance
created at line 88. -/
theorem startup_provider (w : World P V H) (t : List Event) (opts : Options)
    (hn : opts.Provider = "openshift") :
    (startup w t opts).provider = some w.providerOpenShift := by
  cases hv : (w.validate opts w.providerOpenShift).2 with
  | some err => rw [startup_invalid w t opts err hn hv]
  | none =>
    obtain ⟨d, f, q, o, r, hs, -, hp, -⟩ := startup_valid w t opts hn hv
    rw [hs, (loadHtpasswd_frame w _ r o _).2.1, hp]

/-- A flag registered by `main` is found in the full flag set, whatever the
provider binds after it. -/
theorem Lookup_flagSet (bound : List Flag) (name : String) (f : Flag)
    (h : Lookup mainFlags name = some f) : Lookup (flagSet bound) name = some f := by
  unfold Lookup flagSet at *
  rw [List.find?_append, h]
  rfl

/-! ## Properties of `main` -/

/-- C1: startup selects the provider from the configured name.  For every
options value left by `options.Resolve`: the run began by creating the
OpenShift provider and binding it to the flag set; if the provider name is
`"openshift"` the selected provider `p` is that instance; for every other name
the process exits with status 1, no provider is selected, `Validate` is never
called and no Validator, OAuthProxy or Server is created. -/
theorem provider_selected_from_name (w : World P V H) (opts : Options)
    (h : (main w).resolved = some opts) :
    [Event.openshiftNew, Event.bind] <+: (main w).trace ∧
    (opts.Provider = "openshift" → (main w).provider = some w.providerOpenShift) ∧
    (opts.Provider ≠ "openshift" →
      (main w).exit = .exit 1 ∧ (main w).provider = none ∧
      Event.validate ∉ (main w).trace ∧
      (∀ d f, Event.newValidator d f ∉ (main w).trace) ∧
      Event.newOAuthProxy ∉ (main w).trace ∧
      Event.newServer ∉ (main w).trace ∧
      (main w).built = none ∧ (main w).proxy = none ∧ (main w).server = none) := by
  obtain ⟨t, ht, hpre, hearly⟩ := main_eq_startup w opts h
  rw [ht]
  refine ⟨hpre.trans (startup_trace_extends w t opts), ?_, ?_⟩
  · intro hn
    cases hv : (w.validate opts w.providerOpenShift).2 with
    | some err => rw [startup_invalid w t opts err hn hv]
    | none =>
      obtain ⟨d, f, q, o, r, hs, -, hp, -⟩ := startup_valid w t opts hn hv
      rw [hs, (loadHtpasswd_frame w _ r o _).2.1, hp]
  · intro hn
    rw [startup_unrecognized w t opts hn]
    refine ⟨rfl, rfl, ?_, ?_, ?_, ?_, rfl, rfl, rfl⟩
    · intro hm
      have := hearly _ (by simpa using hm)
      simp [Event.early] at this
    · intro d f hm
      have := hearly _ (by simpa using hm)
      simp [Event.early] at this
    · intro hm
      have := hearly _ (by simpa using hm)
      simp [Event.early] at this
    · intro hm
      have := hearly _ (by simpa using hm)
      simp [Event.early] at this

/-- C2: a configuration error found by `opts.Validate(p)` is fatal.  For every
options value left by `options.Resolve` and selected provider `p`: if
`Validate` returns an error the process exits with status 1, and no Validator,
OAuthProxy or Server is created and `ListenAndServe` is never called; and
whenever a Validator or an OAuthProxy is constructed, `Validate` returned no
error and its call comes first in the trace. -/
theorem validation_error_is_fatal (w : World P V H) (opts : Options) (p : P)
    (h : (main w).resolved = some opts) (hp : (main w).provider = some p) :
    (∀ err, (w.validate opts p).2 = some err →
      (main w).exit = .exit 1 ∧
      (∀ d f, Event.newValidator d f ∉ (main w).trace) ∧
      Event.newOAuthProxy ∉ (main w).trace ∧
      Event.newServer ∉ (main w).trace ∧
      Event.listenAndServe ∉ (main w).trace ∧
      (main w).built = none ∧ (main w).proxy = none ∧ (main w).server = none) ∧
    (((∃ d f, Event.newValidator d f ∈ (main w).trace) ∨
        Event.newOAuthProxy ∈ (main w).trace ∨ (main w).built ≠ none) →
      (w.validate opts p).2 = none ∧
      ∃ pre post d f,
        (main w).trace =
          pre ++ [Event.validate, Event.newValidator d f, Event.newOAuthProxy] ++ post ∧
        (∀ d1 f1, Event.newValidator d1 f1 ∉ pre) ∧ Event.newOAuthProxy ∉ pre) := by
  obtain ⟨t, ht, -, hearly⟩ := main_eq_startup w opts h
  have hname : opts.Provider = "openshift" := by
    by_contra hn
    rw [ht, startup_unrecognized w t opts hn] at hp
    cases hp
  have hpo : p = w.providerOpenShift := by
    have := startup_provider w t opts hname
    rw [ht, this] at hp
    cases hp
    rfl
  subst hpo
  have hnv : ∀ d f, Event.newValidator d f ∉ t := by
    intro d f hm
    have := hearly _ hm
    simp [Event.early] at this
  have hno : Event.newOAuthProxy ∉ t := by
    intro hm
    have := hearly _ hm
    simp [Event.early] at this
  have hns : Event.newServer ∉ t := by
    intro hm
    have := hearly _ hm
    simp [Event.early] at this
  have hnl : Event.listenAndServe ∉ t := by
    intro hm
    have := hearly _ hm
    simp [Event.early] at this
  cases hv : (w.validate opts w.providerOpenShift).2 with
  | some err =>
    rw [ht, startup_invalid w t opts err hname hv]
    refine ⟨?_, ?_⟩
    · intro err1 _
      refine ⟨rfl, ?_, ?_, ?_, ?_, rfl, rfl, rfl⟩
      · intro d f hm
        exact hnv d f (by simpa using hm)
      · intro hm
        exact hno (by simpa using hm)
      · intro hm
        exact hns (by simpa using hm)
      · intro hm
        exact hnl (by simpa using hm)
    · rintro (⟨d, f, hm⟩ | hm | hm)
      · exact absurd (by simpa using hm) (hnv d f)
      · exact absurd (by simpa using hm) hno
      · exact absurd rfl hm
  | none =>
    refine ⟨fun err he => (by cases he), fun _ => ⟨rfl, ?_⟩⟩
    obtain ⟨d, f, q, o, r, hs, -⟩ := startup_valid w t opts hname hv
    obtain ⟨post, hpost, -⟩ := loadHtpasswd_trace w
      (t ++ [.validate, .newValidator d f, .newOAuthProxy]) r o (setSignInMessage o q)
    exact ⟨t, post, d, f, by rw [ht, hs, hpost], hnv, hno⟩

/-- C3: an unreadable htpasswd file is fatal.  For every options value (as it
stands when line 136 reads it) whose htpasswd file path is non-empty,
`NewHtpasswdFromFile` is called on that path; if it returns an error the process
logs the fatal message and exits with status 1, and no Server is created or
started; if it returns no error the htpasswd store of the served proxy is the
loaded store. -/
theorem unreadable_htpasswd_is_fatal (w : World P V H) (opts : Options)
    (h : (main w).opts = some opts) (hne : opts.HtpasswdFile ≠ "") :
    Event.newHtpasswdFromFile opts.HtpasswdFile ∈ (main w).trace ∧
    (∀ e, (w.newHtpasswdFromFile opts.HtpasswdFile).2 = some e →
      (main w).exit = .exit 1 ∧
      Event.logFatalf "FATAL: unable to open %s %s" [opts.HtpasswdFile, e] ∈ (main w).trace ∧
      Event.newServer ∉ (main w).trace ∧
      Event.listenAndServe ∉ (main w).trace ∧
      (main w).server = none) ∧
    ((w.newHtpasswdFromFile opts.HtpasswdFile).2 = none →
      (main w).exit = .serving ∧
      ∃ s, (main w).server = some s ∧ (main w).proxy = some s.Handler.handler ∧
        s.Handler.handler.HtpasswdFile = (w.newHtpasswdFromFile opts.HtpasswdFile).1) := by
  obtain ⟨t, q, r, ht, -, -, -, hsv, hcon⟩ := main_eq_loadHtpasswd w opts h
  have hns : Event.newServer ∉ t := by
    intro hm
    have := hcon _ hm
    simp [Event.constructing, Event.early] at this
  have hnl : Event.listenAndServe ∉ t := by
    intro hm
    have := hcon _ hm
    simp [Event.constructing, Event.early] at this
  cases he : (w.newHtpasswdFromFile opts.HtpasswdFile).2 with
  | some e =>
    rw [ht, loadHtpasswd_error w t r opts _ e hne he]
    refine ⟨by simp, ?_, fun hc => by cases hc⟩
    intro e1 he1
    cases he1
    refine ⟨rfl, by simp, ?_, ?_, hsv⟩
    · intro hm
      exact hns (by simpa using hm)
    · intro hm
      exact hnl (by simpa using hm)
  | none =>
    rw [ht, loadHtpasswd_ok w t r opts _ hne he]
    refine ⟨by simp [serve], fun e1 he1 => (by cases he1), fun _ => ⟨rfl, ?_⟩⟩
    exact ⟨_, rfl, rfl, rfl⟩

/-- C7: a config file that cannot be loaded is fatal.  For every command line
that parses and does not ask for the version: if the config path is non-empty
and `toml.DecodeFile` returns an error, the process logs the fatal message and
exits with status 1 before the environment is loaded and before options are
resolved; if the path is empty no file is decoded, and `options.Resolve` is
called on the flag set and on the map filled from the environment alone. -/
theorem unloadable_config_is_fatal (w : World P V H) (actual : Actual)
    (hp : w.parse = .ok actual) (hv : showVersion actual = false) :
    (config actual ≠ "" → ∀ err, w.decodeFile (config actual) [] = .error err →
      (main w).exit = .exit 1 ∧
      Event.logFatalf "ERROR: failed to load config file %s - %s" [config actual, err] ∈
        (main w).trace ∧
      Event.loadEnvForStruct ∉ (main w).trace ∧
      Event.resolve ∉ (main w).trace ∧
      (main w).resolved = none) ∧
    (config actual = "" →
      (∀ path, Event.decodeFile path ∉ (main w).trace) ∧
      Event.resolve ∈ (main w).trace ∧
      (main w).resolved =
        (w.resolve w.newOptions (flagSet w.bound) actual
          (w.loadEnvForStruct [] w.newOptions)).toOption) := by
  refine ⟨?_, ?_⟩
  · intro hc err hd
    rw [main_config_error w actual err hp hv hc hd]
    exact ⟨rfl, by simp, by simp, by simp, rfl⟩
  · intro hc
    rw [main_no_config w actual hp hv hc]
    cases hr : w.resolve w.newOptions (flagSet w.bound) actual
        (w.loadEnvForStruct [] w.newOptions) with
    | error code =>
      rw [resolveOptions_error w _ actual [] code hr]
      exact ⟨by simp, by simp, rfl⟩
    | ok opts =>
      rw [resolveOptions_ok w _ actual [] opts hr]
      obtain ⟨post, hpost, hlate⟩ := startup_trace w
        ([.openshiftNew, .bind, .parse, .newOptions] ++ [.loadEnvForStruct, .resolve]) opts
      rw [hpost, startup_resolved]
      refine ⟨?_, by simp, rfl⟩
      intro path hm
      simp only [List.mem_append, List.mem_cons, List.mem_singleton, List.not_mem_nil,
        or_false, reduceCtorEq, false_or] at hm
      have := hlate _ hm
      simp [Event.early] at this

/-- C8: the sign-in message is a function of the email-domain list `D` and the
authenticated-emails file path `F` (as they stand when line 128 reads them).
On every run that gets there, the proxy `q` the run ends with carries: for `F`
empty and `D` of more than one element, the fixed text followed by the elements
of `D` joined with `", "`; for `F` empty and `D` a single element other than
`"*"`, `"Authenticate using "` followed by that element; in every other case
(`D` empty, `F` non-empty, or `D = ["*"]`) the message of the proxy `q0` that
`NewOAuthProxy` returned. -/
theorem sign_in_message_from_domains (w : World P V H) (opts : Options)
    (h : (main w).opts = some opts) :
    ∃ q0 q, (main w).built = some q0 ∧ (main w).proxy = some q ∧
      (opts.AuthenticatedEmailsFile = "" → 1 < opts.EmailDomains.length →
        q.SignInMessage = "Authenticate using one of the following domains: " ++
          ", ".intercalate opts.EmailDomains) ∧
      (opts.AuthenticatedEmailsFile = "" → ∀ d, opts.EmailDomains = [d] → d ≠ "*" →
        q.SignInMessage = "Authenticate using " ++ d) ∧
      (opts.EmailDomains = [] ∨ opts.AuthenticatedEmailsFile ≠ "" ∨
          opts.EmailDomains = ["*"] →
        q.SignInMessage = q0.SignInMessage) := by
  obtain ⟨t, q0, r, ht, hb, -, -, -, -⟩ := main_eq_loadHtpasswd w opts h
  obtain ⟨q, hq, hmsg⟩ := loadHtpasswd_proxy w t r opts (setSignInMessage opts q0)
  refine ⟨q0, q, ?_, ?_, ?_, ?_, ?_⟩
  · rw [ht, (loadHtpasswd_frame w t r opts _).2.2.1, hb]
  · rw [ht, hq]
  · intro hf hd
    rw [hmsg]
    have hd0 : opts.EmailDomains.length ≠ 0 := by omega
    simp [setSignInMessage, hf, hd, hd0]
  · intro hf d hd hstar
    rw [hmsg]
    simp [setSignInMessage, hf, hd, hstar]
  · rintro (hd | hf | hd)
    · rw [hmsg]
      simp [setSignInMessage, hd]
    · rw [hmsg]
      simp [setSignInMessage, hf]
    · rw [hmsg]
      simp [setSignInMessage, hd]

/-- C9: with the version flag set, `main` prints the version line and returns.
For every command line that parses with the version flag set, whatever else it
sets: the trace is the provider creation and binding, the parse and the one
`Printf`; `main` returns; no config file is decoded, no options are resolved or
validated, no provider is selected, and no Validator, OAuthProxy or Server is
created. -/
theorem version_flag_returns (w : World P V H) (actual : Actual)
    (hp : w.parse = .ok actual) (hv : showVersion actual = true) :
    (main w).trace =
      [.openshiftNew, .bind, .parse,
        .printf ("oauth2_proxy v" ++ w.VERSION ++ " (built with " ++
          w.runtimeVersion ++ ")\n")] ∧
    (main w).exit = .returned ∧
    (main w).resolved = none ∧ (main w).provider = none ∧ (main w).built = none ∧
    (main w).opts = none ∧ (main w).proxy = none ∧ (main w).server = none := by
  rw [main_version w actual hp hv]
  exact ⟨rfl, rfl, rfl, rfl, rfl, rfl, rfl, rfl⟩

/-- C10: with no htpasswd file configured the proxy keeps what `NewOAuthProxy`
set.  On every run that gets to line 136: if the htpasswd path is empty,
`NewHtpasswdFromFile` is never called and the served proxy has the htpasswd
store and the display-htpasswd-form setting of the proxy `q0` that
`NewOAuthProxy` returned, whatever the display-htpasswd-form option is; if the
path is non-empty the proxy the run ends with has the option as its
display-htpasswd-form setting. -/
theorem htpasswd_untouched_without_file (w : World P V H) (opts : Options)
    (h : (main w).opts = some opts) :
    (opts.HtpasswdFile = "" →
      (∀ path, Event.newHtpasswdFromFile path ∉ (main w).trace) ∧
      ∃ q0 s, (main w).built = some q0 ∧ (main w).server = some s ∧
        s.Handler.handler.HtpasswdFile = q0.HtpasswdFile ∧
        s.Handler.handler.DisplayHtpasswdForm = q0.DisplayHtpasswdForm) ∧
    (opts.HtpasswdFile ≠ "" →
      ∃ q, (main w).proxy = some q ∧
        q.DisplayHtpasswdForm = opts.DisplayHtpasswdForm) := by
  obtain ⟨t, q0, r, ht, hb, -, -, -, hcon⟩ := main_eq_loadHtpasswd w opts h
  refine ⟨?_, ?_⟩
  · intro hc
    rw [ht, loadHtpasswd_unset w t r opts _ hc]
    refine ⟨?_, q0, _, hb, rfl, ?_, ?_⟩
    · intro path hm
      have hm1 : Event.newHtpasswdFromFile path ∈ t := by simpa [serve] using hm
      have := hcon _ hm1
      simp [Event.constructing, Event.early] at this
    · exact (setSignInMessage_frame opts q0).1
    · exact (setSignInMessage_frame opts q0).2
  · intro hc
    cases he : (w.newHtpasswdFromFile opts.HtpasswdFile).2 with
    | some e =>
      rw [ht, loadHtpasswd_error w t r opts _ e hc he]
      exact ⟨_, rfl, rfl⟩
    | none =>
      rw [ht, loadHtpasswd_ok w t r opts _ hc he]
      exact ⟨_, rfl, rfl⟩

/-! ## Properties of the collaborators described by the specification -/

/-- C4: the defaults of the external interface are the documented ones.  The
flag set registers `cookie-name` with default `"_oauth_proxy"` and
`proxy-prefix` with default `"/oauth"`, whatever the provider binds; and when
neither the command line nor the config map supplies a value, these are the
values in effect after resolution. -/
theorem documented_defaults (bound : List Flag) (actual : Actual) (cfg : EnvOptions) :
    Lookup (flagSet bound) "cookie-name" = some ⟨"cookie-name", .str "_oauth_proxy"⟩ ∧
    Lookup (flagSet bound) "proxy-prefix" = some ⟨"proxy-prefix", .str "/oauth"⟩ ∧
    (actual.lookup "cookie-name" = none → cfg.lookup (cfgName "cookie-name") = none →
      resolveValue (flagSet bound) actual cfg "cookie-name" =
        some (.str "_oauth_proxy")) ∧
    (actual.lookup "proxy-prefix" = none → cfg.lookup (cfgName "proxy-prefix") = none →
      resolveValue (flagSet bound) actual cfg "proxy-prefix" = some (.str "/oauth")) := by
  have hc := Lookup_flagSet bound "cookie-name" ⟨"cookie-name", .str "_oauth_proxy"⟩ rfl
  have hp := Lookup_flagSet bound "proxy-prefix" ⟨"proxy-prefix", .str "/oauth"⟩ rfl
  refine ⟨hc, hp, ?_, ?_⟩
  · intro ha hcfg
    simp only [resolveValue, ha, hcfg, hc, Option.map_some']
  · intro ha hcfg
    simp only [resolveValue, ha, hcfg, hp, Option.map_some']

/-- C5: the wildcard domain rule authorizes any email.  For a Validator built
by `NewValidator` from an email-domain list that contains `"*"`, whatever the
emails file, `IsAuthorized` is true for every non-empty email. -/
theorem wildcard_authorizes_any_email (readEmails : String → List String)
    (domains : List String) (usersFile email : String)
    (h : "*" ∈ domains) (he : email ≠ "") :
    (NewValidator readEmails domains usersFile).IsAuthorized email = true := by
  have hc : domains.contains "*" = true := by simpa using h
  unfold Validator.IsAuthorized NewValidator
  simp only [he, hc, ↓reduceIte]

/-- C6: authentication bypass.  For every request path and method,
`ShouldBypassAuth` is true when the path matches some configured skip-auth
pattern, or when the method is OPTIONS and preflight bypass is enabled.  The
flag set registers `skip-auth-preflight` with default `false` and
`skip-auth-regex` empty; so when no skip-auth pattern is in effect and neither
the command line nor the config map sets the preflight flag, the preflight
setting in effect is `false` and no request bypasses authentication. -/
theorem bypass_contract (matchString : String → String → Bool) (bound : List Flag) :
    (∀ patterns preflight path method,
      ((∃ re ∈ patterns, matchString re path = true) ∨
          (method = "OPTIONS" ∧ preflight = true)) →
        ShouldBypassAuth matchString patterns preflight path method = true) ∧
    Lookup (flagSet bound) "skip-auth-preflight" =
      some ⟨"skip-auth-preflight", .bool false⟩ ∧
    Lookup (flagSet bound) "skip-auth-regex" = some ⟨"skip-auth-regex", .strings []⟩ ∧
    (∀ (actual : Actual) (cfg : EnvOptions),
      resolveValue (flagSet bound) actual cfg "skip-auth-regex" = some (.strings []) →
      actual.lookup "skip-auth-preflight" = none →
      cfg.lookup (cfgName "skip-auth-preflight") = none →
        resolveValue (flagSet bound) actual cfg "skip-auth-preflight" =
          some (.bool false) ∧
        ∀ path method, ShouldBypassAuth matchString [] false path method = false) := by
  have hp := Lookup_flagSet bound "skip-auth-preflight"
    ⟨"skip-auth-preflight", .bool false⟩ rfl
  have hr := Lookup_flagSet bound "skip-auth-regex" ⟨"skip-auth-regex", .strings []⟩ rfl
  refine ⟨?_, hp, hr, ?_⟩
  · rintro patterns preflight path method (⟨re, hre, hm⟩ | ⟨hm, hpre⟩)
    · simp only [ShouldBypassAuth, Bool.or_eq_true, List.any_eq_true]
      exact Or.inl ⟨re, hre, hm⟩
    · simp [ShouldBypassAuth, hm, hpre]
  · intro actual cfg _ ha hcfg
    refine ⟨?_, ?_⟩
    · simp only [resolveValue, ha, hcfg, hp, Option.map_some']
    · intro path method
      simp [ShouldBypassAuth]

/-! ## The properties on concrete runs -/

/-- C1 on two runs: provider `github` is refused with status 1, provider
`openshift` selects the bound instance. -/
theorem provider_selected_from_name_witness :
    (main (sampleWorld [] (sampleOptions "github" ["a.com"] ""))).resolved =
        some (sampleOptions "github" ["a.com"] "") ∧
      (sampleOptions "github" ["a.com"] "").Provider ≠ "openshift" ∧
      (main (sampleWorld [] (sampleOptions "github" ["a.com"] ""))).exit = .exit 1 ∧
      (main (sampleWorld [] (sampleOptions "openshift" ["a.com"] ""))).provider =
        some "openshift-provider" :=
  ⟨rfl, by decide,
    ((provider_selected_from_name (sampleWorld [] (sampleOptions "github" ["a.com"] ""))
      (sampleOptions "github" ["a.com"] "") rfl).2.2 (by decide)).1,
    (provider_selected_from_name (sampleWorld [] (sampleOptions "openshift" ["a.com"] ""))
      (sampleOptions "openshift" ["a.com"] "") rfl).2.1 rfl⟩

/-- C2 on a run whose options configure no email rule: validation fails, the
process exits with status 1 and no Server exists. -/
theorem validation_error_is_fatal_witness :
    (main (sampleWorld [] (sampleOptions "openshift" [] ""))).resolved =
        some (sampleOptions "openshift" [] "") ∧
      (main (sampleWorld [] (sampleOptions "openshift" [] ""))).provider =
        some "openshift-provider" ∧
      (main (sampleWorld [] (sampleOptions "openshift" [] ""))).exit = .exit 1 ∧
      (main (sampleWorld [] (sampleOptions "openshift" [] ""))).server = none :=
  ⟨rfl, rfl,
    ((validation_error_is_fatal (sampleWorld [] (sampleOptions "openshift" [] ""))
      (sampleOptions "openshift" [] "") "openshift-provider" rfl rfl).1
      "missing setting for email validation" rfl).1,
    ((validation_error_is_fatal (sampleWorld [] (sampleOptions "openshift" [] ""))
      (sampleOptions "openshift" [] "") "openshift-provider" rfl rfl).1
      "missing setting for email validation" rfl).2.2.2.2.2.2.2⟩

/-- C3 on a run whose htpasswd file cannot be opened: the process exits with
status 1 and no Server exists. -/
theorem unreadable_htpasswd_is_fatal_witness :
    (main (sampleWorld [] (sampleOptions "openshift" ["a.com"] "missing.htpasswd"))).opts =
        some (sampleOptions "openshift" ["a.com"] "missing.htpasswd") ∧
      (sampleOptions "openshift" ["a.com"] "missing.htpasswd").HtpasswdFile ≠ "" ∧
      (main (sampleWorld [] (sampleOptions "openshift" ["a.com"] "missing.htpasswd"))).exit =
        .exit 1 ∧
      (main (sampleWorld [] (sampleOptions "openshift" ["a.com"] "missing.htpasswd"))).server =
        none :=
  ⟨rfl, by decide,
    ((unreadable_htpasswd_is_fatal
      (sampleWorld [] (sampleOptions "openshift" ["a.com"] "missing.htpasswd"))
      (sampleOptions "openshift" ["a.com"] "missing.htpasswd") rfl (by decide)).2.1
      "open missing.htpasswd: no such file or directory" rfl).1,
    ((unreadable_htpasswd_is_fatal
      (sampleWorld [] (sampleOptions "openshift" ["a.com"] "missing.htpasswd"))
      (sampleOptions "openshift" ["a.com"] "missing.htpasswd") rfl (by decide)).2.1
      "open missing.htpasswd: no such file or directory" rfl).2.2.2.2⟩

/-- C4 on an empty command line and an empty config map. -/
theorem documented_defaults_witness :
    resolveValue (flagSet []) [] [] "cookie-name" = some (.str "_oauth_proxy") ∧
      resolveValue (flagSet []) [] [] "proxy-prefix" = some (.str "/oauth") :=
  ⟨(documented_defaults [] [] []).2.2.1 rfl rfl,
    (documented_defaults [] [] []).2.2.2 rfl rfl⟩

/-- C5 on the domain list `["example.com", "*"]`. -/
theorem wildcard_authorizes_any_email_witness :
    "*" ∈ ["example.com", "*"] ∧ "mallory@elsewhere.org" ≠ "" ∧
      (NewValidator (fun _ => []) ["example.com", "*"] "").IsAuthorized
        "mallory@elsewhere.org" = true :=
  ⟨by decide, by decide,
    wildcard_authorizes_any_email (fun _ => []) ["example.com", "*"] ""
      "mallory@elsewhere.org" (by decide) (by decide)⟩

/-- C6 on an empty command line and an empty config map, with an engine that
matches every path. -/
theorem bypass_contract_witness :
    resolveValue (flagSet []) [] [] "skip-auth-regex" = some (.strings []) ∧
      resolveValue (flagSet []) [] [] "skip-auth-preflight" = some (.bool false) ∧
      ShouldBypassAuth (fun _ _ => true) [] false "/metrics" "OPTIONS" = false ∧
      ShouldBypassAuth (fun _ _ => true) ["^/metrics"] false "/metrics" "GET" = true :=
  ⟨rfl,
    ((bypass_contract (fun _ _ => true) []).2.2.2 [] [] rfl rfl rfl).1,
    ((bypass_contract (fun _ _ => true) []).2.2.2 [] [] rfl rfl rfl).2 "/metrics" "OPTIONS",
    (bypass_contract (fun _ _ => true) []).1 ["^/metrics"] false "/metrics" "GET"
      (Or.inl ⟨"^/metrics", by simp, rfl⟩)⟩

/-- C7 on two command lines: `-config missing.cfg` is fatal, no `-config`
decodes nothing and resolves. -/
theorem unloadable_config_is_fatal_witness :
    (sampleWorld [("config", .str "missing.cfg")]
        (sampleOptions "openshift" ["a.com"] "")).parse =
        .ok [("config", .str "missing.cfg")] ∧
      showVersion [("config", .str "missing.cfg")] = false ∧
      config [("config", .str "missing.cfg")] ≠ "" ∧
      (main (sampleWorld [("config", .str "missing.cfg")]
        (sampleOptions "openshift" ["a.com"] ""))).exit = .exit 1 ∧
      Event.resolve ∈
        (main (sampleWorld [] (sampleOptions "openshift" ["a.com"] ""))).trace :=
  ⟨rfl, rfl, by decide,
    ((unloadable_config_is_fatal
      (sampleWorld [("config", .str "missing.cfg")] (sampleOptions "openshift" ["a.com"] ""))
      [("config", .str "missing.cfg")] rfl rfl).1 (by decide)
      "open missing.cfg: no such file or directory" rfl).1,
    ((unloadable_config_is_fatal
      (sampleWorld [] (sampleOptions "openshift" ["a.com"] "")) [] rfl rfl).2 rfl).2.1⟩

/-- C8 on a run with two email domains. -/
theorem sign_in_message_from_domains_witness :
    (main (sampleWorld [] (sampleOptions "openshift" ["a.com", "b.org"] ""))).opts =
        some (sampleOptions "openshift" ["a.com", "b.org"] "") ∧
      ∃ q0 q,
        (main (sampleWorld [] (sampleOptions "openshift" ["a.com", "b.org"] ""))).built =
          some q0 ∧
        (main (sampleWorld [] (sampleOptions "openshift" ["a.com", "b.org"] ""))).proxy =
          some q ∧
        q.SignInMessage = "Authenticate using one of the following domains: a.com, b.org" :=
  ⟨rfl,
    match sign_in_message_from_domains
      (sampleWorld [] (sampleOptions "openshift" ["a.com", "b.org"] ""))
      (sampleOptions "openshift" ["a.com", "b.org"] "") rfl with
    | ⟨q0, q, hb, hq, hmany, _, _⟩ => ⟨q0, q, hb, hq, hmany rfl (by decide)⟩⟩

/-- C9 on the command line `-version -config missing.cfg`. -/
theorem version_flag_returns_witness :
    (sampleWorld [("version", .bool true), ("config", .str "missing.cfg")]
        (sampleOptions "openshift" ["a.com"] "")).parse =
        .ok [("version", .bool true), ("config", .str "missing.cfg")] ∧
      showVersion [("version", .bool true), ("config", .str "missing.cfg")] = true ∧
      (main (sampleWorld [("version", .bool true), ("config", .str "missing.cfg")]
        (sampleOptions "openshift" ["a.com"] ""))).exit = .returned ∧
      (main (sampleWorld [("version", .bool true), ("config", .str "missing.cfg")]
        (sampleOptions "openshift" ["a.com"] ""))).trace =
        [.openshiftNew, .bind, .parse,
          .printf "oauth2_proxy v2.2.1-alpha (built with go1.9)\n"] :=
  ⟨rfl, rfl,
    (version_flag_returns
      (sampleWorld [("version", .bool true), ("config", .str "missing.cfg")]
        (sampleOptions "openshift" ["a.com"] ""))
      [("version", .bool true), ("config", .str "missing.cfg")] rfl rfl).2.1,
    (version_flag_returns
      (sampleWorld [("version", .bool true), ("config", .str "missing.cfg")]
        (sampleOptions "openshift" ["a.com"] ""))
      [("version", .bool true), ("config", .str "missing.cfg")] rfl rfl).1⟩

/-- C10 on a run with no htpasswd file: the option is `true`, the served proxy
keeps the `false` that `NewOAuthProxy` set. -/
theorem htpasswd_untouched_without_file_witness :
    (main (sampleWorld [] (sampleOptions "openshift" ["a.com"] ""))).opts =
        some (sampleOptions "openshift" ["a.com"] "") ∧
      (sampleOptions "openshift" ["a.com"] "").HtpasswdFile = "" ∧
      (sampleOptions "openshift" ["a.com"] "").DisplayHtpasswdForm = true ∧
      ∃ q0 s,
        (main (sampleWorld [] (sampleOptions "openshift" ["a.com"] ""))).built = some q0 ∧
        (main (sampleWorld [] (sampleOptions "openshift" ["a.com"] ""))).server = some s ∧
        s.Handler.handler.HtpasswdFile = q0.HtpasswdFile ∧
        s.Handler.handler.DisplayHtpasswdForm = q0.DisplayHtpasswdForm :=
  ⟨rfl, rfl, rfl,
    ((htpasswd_untouched_without_file
      (sampleWorld [] (sampleOptions "openshift" ["a.com"] ""))
      (sampleOptions "openshift" ["a.com"] "") rfl).1 rfl).2⟩

end Oauth2Proxy
